import Mathlib

/-!
Verification of the photon-controller-cli task-polling / pagination core and
of the resource command handlers (images, networks, projects) against the
repository sources. Pure fragments of the Go code are translated into
executable Lean definitions; SDK calls, prompts and the filesystem are passed
in as explicit capabilities, and each handler additionally returns the list of
SDK calls it issued, in order. Helpers whose implementation is not under src/
(the poller, the page walker, checkArgCount, confirmed) are modelled from the
specification, as marked in their doc comments.
-/

namespace PhotonCLI

/-- Entity reference carried by a task (kind + id of the acted-on resource). -/
structure Entity where
  kind : String
  id : String
deriving DecidableEq

/-- A server-side task object, as observed by one fetch of the task resource.
Mirrors photon.Task as used throughout the sources (Operation, State, ID,
Entity); `message` is the error message carried by a task in ERROR state. -/
structure Task where
  id : String
  operation : String
  state : String
  entity : Entity
  message : String
deriving DecidableEq

/-- Classified command errors.  Constructors stand for the distinct error
values produced by the handlers in the sources; messages coming from the
SDK / transport are carried as strings. -/
inductive CmdError where
  | argCount (got : Nat) (expected : Nat)
  | unknownArgument (extra : List String)
  | missingImagePath
  | noSuchImageFile
  | missingImageId
  | missingNetworkName
  | missingPortGroups
  | missingNetworkType
  | unsupportedScope (scope : String)
  | missingProjectId
  | onlyOneOfLimitsOrPercent
  | promptFailed (msg : String)
  | transport (msg : String)
  | taskFailed (operation : String) (message : String)
  | unknownTaskState (state : String)
  | other (msg : String)
deriving DecidableEq

/-- Recognized non-terminal task states (spec 4.1: QUEUED, STARTED, etc.). -/
def recognizedNonTerminal (s : String) : Bool :=
  s = "QUEUED" || s = "STARTED" || s = "IN_PROGRESS"

/-- Modelled from the spec: the task-completion poller waitOnTaskOperation
(its implementation is not under src/, only its callers are; spec 4.1).
The successive fetch results are given as a list of tasks; the result is the
poller outcome together with the number of fetches performed.  COMPLETED
returns the entity id; ERROR fails with TaskFailed carrying operation and
message; a recognized non-terminal state sleeps and refetches; any other
state is a hard UnknownTaskState error; an exhausted list stands for a
failing fetch, which aborts immediately. -/
def pollTask : List Task → Except CmdError String × Nat
  | [] => (.error (.transport "task fetch failed"), 0)
  | t :: rest =>
    if t.state = "COMPLETED" then (.ok t.entity.id, 1)
    else if t.state = "ERROR" then (.error (.taskFailed t.operation t.message), 1)
    else if recognizedNonTerminal t.state then
      ((pollTask rest).1, (pollTask rest).2 + 1)
    else (.error (.unknownTaskState t.state), 1)

/-- One page of a paginated collection (items plus continuation links),
mirroring the MockImagesPage / MockHostsPage shape of the tests. -/
structure Page (α : Type) where
  items : List α
  nextPageLink : String
  previousPageLink : String
deriving DecidableEq

/-- Modelled from the spec: the paginated collection walker used by the SDK
GetAll operations (their implementation is not under src/, only the tests
exercising two-page fixtures are; spec 4.2).  The successive page-fetch
results are given as a list; the result is the walk outcome together with the
number of fetches performed.  Items are accumulated in encountered order; an
empty nextPageLink stops the walk; a failing fetch aborts it, discarding any
accumulated items. -/
def walkPages {α : Type} : List (Except String (Page α)) → Except String (List α) × Nat
  | [] => (.error "page fetch failed", 0)
  | .error e :: _ => (.error e, 1)
  | .ok p :: rest =>
    if p.nextPageLink = "" then (.ok p.items, 1)
    else
      match walkPages rest with
      | (.error e, n) => (.error e, n + 1)
      | (.ok items, n) => (.ok (p.items ++ items), n + 1)

/-- A page sequence in which every page except the last carries a non-empty
continuation link and the last page's link is empty. -/
inductive WellLinked {α : Type} : List (Page α) → Prop
  | last (p : Page α) (h : p.nextPageLink = "") : WellLinked [p]
  | cons (p : Page α) (ps : List (Page α)) (h : p.nextPageLink ≠ "")
      (t : WellLinked ps) : WellLinked (p :: ps)

/-- A network resource (the fields the modelled handlers read). -/
structure Network where
  id : String
  name : String
deriving DecidableEq

/-- An image resource (the fields the modelled handlers read). -/
structure Image where
  id : String
  name : String
deriving DecidableEq

/-- photon.Info, read by isSoftwareDefinedNetwork. -/
structure Info where
  networkType : String
deriving DecidableEq

/-- photon.NetworkCreateSpec (networks). -/
structure NetworkCreateSpec where
  name : String
  description : String
  portGroups : List String
deriving DecidableEq

/-- photon.ImageCreateOptions. -/
structure ImageCreateOptions where
  replicationType : String
deriving DecidableEq

/-- A quota line item (key, value, unit); the Go float64 value is modelled
as a rational. -/
structure QuotaLineItem where
  key : String
  value : ℚ
  unit : String
deriving DecidableEq

/-- A quota status line item (unit, limit, usage). -/
structure QuotaStatusLineItem where
  unit : String
  limit : ℚ
  usage : ℚ
deriving DecidableEq

/-- photon.Quota: the QuotaLineItems map modelled as an association list. -/
structure Quota where
  quotaLineItems : List (String × QuotaStatusLineItem)
deriving DecidableEq

/-- A tenant resource. -/
structure Tenant where
  id : String
  name : String
deriving DecidableEq

/-- photon.ProjectCreateSpec (the fields set by createProject). -/
structure ProjectCreateSpec where
  name : String
  defaultRouterPrivateIpCidr : String
  securityGroups : List String
  resourceQuota : Quota
deriving DecidableEq

/-- The CLI configuration, as read by configuration.LoadConfig: the id of the
default project when one is selected. -/
structure Config where
  projectId : Option String
deriving DecidableEq

/-- One SDK / client call issued by a handler, recorded in order. -/
inductive SdkCall where
  | getClient
  | infoGet
  | networksCreate (spec : NetworkCreateSpec)
  | networksDelete (id : String)
  | virtualSubnetsDelete (id : String)
  | networksSetDefault (id : String)
  | virtualSubnetsSetDefault (id : String)
  | networksGet (id : String)
  | imagesGetAll (name : String)
  | imagesGet (id : String)
  | imagesCreate (name : String)
  | projectsCreateImage (projectId : String) (name : String)
  | verifyTenant (name : String)
  | tenantsGetQuota (tenantId : String)
  | tenantsCreateProject (tenantId : String) (spec : ProjectCreateSpec)
  | projectsGet (id : String)
  | taskGet (taskId : String)
deriving DecidableEq

/-- The trace of task fetches issued by one run of the poller. -/
def taskFetchCalls (id : String) (n : Nat) : List SdkCall :=
  List.replicate n (SdkCall.taskGet id)

/-- True exactly on get-network-by-id calls. -/
def isNetworksGet : SdkCall → Bool
  | .networksGet _ => true
  | _ => false

/-- True exactly on get-image-by-id calls. -/
def isImagesGet : SdkCall → Bool
  | .imagesGet _ => true
  | _ => false

/-- Modelled from the spec: checkArgCount (implementation not under src/;
spec 4.3: handlers validate the positional argument count against an exact
expected arity and fail with an argument-count error on mismatch). -/
def checkArgCount (args : List String) (expected : Nat) : Except CmdError Unit :=
  if args.length = expected then .ok () else .error (.argCount args.length expected)

/-- Modelled from the spec: confirmed(c) (implementation not under src/;
spec 6: the global non-interactive flag suppresses prompts and confirmations,
otherwise the user answers the confirmation prompt). -/
def confirmed (nonInteractive : Bool) (userConfirms : Bool) : Bool :=
  nonInteractive || userConfirms

/-- A prompt capability that keeps the current value, for concrete runs. -/
def askKeep : String → String → Except String String := fun _ v => .ok v

/-- Models the Go regexp split of a comma-separated flag: pieces between
commas with the whitespace adjacent to each comma removed.  (The model also
trims outer whitespace of the first and last piece, which the regex keeps;
nothing proved here depends on that fringe.) -/
def splitCommaWS (s : String) : List String := (s.splitOn ",").map String.trim

/-- Model of Go path.Base: the last slash-separated element after stripping
trailing slashes; slash for an all-slash path, dot for an empty one. -/
def pathBase (s : String) : String :=
  if s = "" then "."
  else
    let t := s.dropRightWhile (· = '/')
    if t = "" then "/"
    else (t.splitOn "/").getLastD t

/-- isSoftwareDefinedNetwork from src/photon/command/networks.go lines
175-192: construct the client, fetch /info, reject a missing network type,
and report whether the network type is SOFTWARE_DEFINED. -/
def isSoftwareDefinedNetwork (getClientResult : Except String Unit)
    (infoGet : Except String Info) : List SdkCall × Except CmdError Bool :=
  match getClientResult with
  | .error e => ([], .error (.transport e))
  | .ok _ =>
    match infoGet with
    | .error e => ([.getClient, .infoGet], .error (.transport e))
    | .ok info =>
      if info.networkType = "NOT_AVAILABLE" then
        ([.getClient, .infoGet], .error .missingNetworkType)
      else ([.getClient, .infoGet], .ok (info.networkType = "SOFTWARE_DEFINED"))

/-- deleteNetwork from src/photon/command/networks.go lines 194-231:
check arity, build the client, determine the network kind, then ask for
confirmation; only when confirmed issue the delete and poll its task.
(log.Fatal on the network-kind error is modelled as an error outcome.) -/
def deleteNetwork (nonInteractive userConfirms : Bool) (args : List String)
    (getClientResult : Except String Unit) (infoGet : Except String Info)
    (deleteResult : Except String Task) (fetches : List Task) :
    List SdkCall × Except CmdError Unit :=
  match checkArgCount args 1 with
  | .error e => ([], .error e)
  | .ok _ =>
    let id := args.headD ""
    match getClientResult with
    | .error e => ([], .error (.transport e))
    | .ok _ =>
      match isSoftwareDefinedNetwork getClientResult infoGet with
      | (tr, .error e) => (.getClient :: tr, .error e)
      | (tr, .ok sdnEnabled) =>
        if ¬ confirmed nonInteractive userConfirms then
          (.getClient :: tr, .ok ())
        else
          let call := if sdnEnabled then SdkCall.virtualSubnetsDelete id
                      else SdkCall.networksDelete id
          match deleteResult with
          | .error e => (.getClient :: tr ++ [call], .error (.transport e))
          | .ok task =>
            match pollTask fetches with
            | (.error err, n) =>
                (.getClient :: tr ++ call :: taskFetchCalls task.id n, .error err)
            | (.ok _, n) =>
                (.getClient :: tr ++ call :: taskFetchCalls task.id n, .ok ())

/-- setDefaultNetwork from src/photon/command/networks.go lines 233-278:
check arity, build the client, determine the network kind, issue the
set-default call, and only then ask for confirmation; when confirmed, poll
the task and optionally fetch the network for formatting, otherwise print a
cancellation message. -/
def setDefaultNetwork (nonInteractive userConfirms needsFmt : Bool)
    (args : List String)
    (getClientResult : Except String Unit) (infoGet : Except String Info)
    (setDefaultResult : Except String Task) (fetches : List Task)
    (networksGetSdk : String → Except String Network) :
    List SdkCall × Except CmdError Unit :=
  match checkArgCount args 1 with
  | .error e => ([], .error e)
  | .ok _ =>
    let id := args.headD ""
    match getClientResult with
    | .error e => ([], .error (.transport e))
    | .ok _ =>
      match isSoftwareDefinedNetwork getClientResult infoGet with
      | (tr, .error e) => (.getClient :: tr, .error e)
      | (tr, .ok sdnEnabled) =>
        let call := if sdnEnabled then SdkCall.virtualSubnetsSetDefault id
                    else SdkCall.networksSetDefault id
        match setDefaultResult with
        | .error e => (.getClient :: tr ++ [call], .error (.transport e))
        | .ok task =>
          if confirmed nonInteractive userConfirms then
            match pollTask fetches with
            | (.error err, n) =>
                (.getClient :: tr ++ call :: taskFetchCalls task.id n, .error err)
            | (.ok rid, n) =>
              if needsFmt then
                match networksGetSdk rid with
                | .error e =>
                    (.getClient :: tr ++ call :: (taskFetchCalls task.id n ++ [.networksGet rid]),
                     .error (.transport e))
                | .ok _ =>
                    (.getClient :: tr ++ call :: (taskFetchCalls task.id n ++ [.networksGet rid]),
                     .ok ())
              else (.getClient :: tr ++ call :: taskFetchCalls task.id n, .ok ())
          else (.getClient :: tr ++ [call], .ok ())

/-- The prompt pass of createPhysicalNetwork (src/photon/command/
physical-networks.go lines 36-49): in interactive mode ask for name,
description and portgroups, starting from the flag values. -/
def resolveNetworkPrompts (nonInteractive : Bool)
    (ask : String → String → Except String String)
    (nameFlag descriptionFlag portGroupsFlag : String) :
    Except CmdError (String × String × String) :=
  if nonInteractive then .ok (nameFlag, descriptionFlag, portGroupsFlag)
  else
    match ask "Network name: " nameFlag with
    | .error e => .error (.promptFailed e)
    | .ok name =>
      match ask "Description of network: " descriptionFlag with
      | .error e => .error (.promptFailed e)
      | .ok description =>
        match ask "PortGroups of network: " portGroupsFlag with
        | .error e => .error (.promptFailed e)
        | .ok portGroups => .ok (name, description, portGroups)

/-- createPhysicalNetwork from src/photon/command/physical-networks.go lines
26-88: check arity, resolve prompts, validate name and portgroups, build the
create spec, construct the client, issue the create, poll its task, and when
formatting is requested fetch the created network by the entity id returned
by the poller. -/
def createPhysicalNetwork (nonInteractive needsFmt : Bool) (args : List String)
    (nameFlag descriptionFlag portGroupsFlag : String)
    (ask : String → String → Except String String)
    (getClientResult : Except String Unit)
    (createSdk : NetworkCreateSpec → Except String Task)
    (fetches : List Task)
    (networksGetSdk : String → Except String Network) :
    List SdkCall × Except CmdError Unit :=
  match checkArgCount args 0 with
  | .error e => ([], .error e)
  | .ok _ =>
    match resolveNetworkPrompts nonInteractive ask nameFlag descriptionFlag portGroupsFlag with
    | .error e => ([], .error e)
    | .ok (name, description, portGroups) =>
      if name.length = 0 then ([], .error .missingNetworkName)
      else if portGroups.length = 0 then ([], .error .missingPortGroups)
      else
        let spec : NetworkCreateSpec := ⟨name, description, splitCommaWS portGroups⟩
        match getClientResult with
        | .error e => ([], .error (.transport e))
        | .ok _ =>
          match createSdk spec with
          | .error e => ([.getClient, .networksCreate spec], .error (.transport e))
          | .ok task =>
            match pollTask fetches with
            | (.error err, n) =>
                ([.getClient, .networksCreate spec] ++ taskFetchCalls task.id n, .error err)
            | (.ok nid, n) =>
              if needsFmt then
                match networksGetSdk nid with
                | .error e =>
                    ([.getClient, .networksCreate spec] ++ taskFetchCalls task.id n
                       ++ [.networksGet nid], .error (.transport e))
                | .ok _ =>
                    ([.getClient, .networksCreate spec] ++ taskFetchCalls task.id n
                       ++ [.networksGet nid], .ok ())
              else ([.getClient, .networksCreate spec] ++ taskFetchCalls task.id n, .ok ())

/-- listImages from src/unnamed/part_001 lines 389-431: check arity (zero
positional arguments), construct the client, call Images.GetAll (whose
pagination is the walker above, applied to the given page responses) and on
success print exactly the returned items, in order; on failure surface the
error and print nothing. -/
def listImages (args : List String) (nameFlag : String)
    (getClientResult : Except String Unit)
    (responses : List (Except String (Page Image))) :
    List SdkCall × Except CmdError (List Image) :=
  match checkArgCount args 0 with
  | .error e => ([], .error e)
  | .ok _ =>
    match getClientResult with
    | .error e => ([], .error (.transport e))
    | .ok _ =>
      match walkPages responses with
      | (.error e, _) => ([.getClient, .imagesGetAll nameFlag], .error (.transport e))
      | (.ok items, _) => ([.getClient, .imagesGetAll nameFlag], .ok items)

/-- showImage from src/unnamed/part_001 lines 434-487: take the first
positional argument as the id (prompting for it when interactive), reject an
empty id, construct the client and fetch the image.  Note the source performs
no argument-count validation. -/
def showImage (nonInteractive : Bool) (args : List String)
    (ask : String → String → Except String String)
    (getClientResult : Except String Unit)
    (imagesGetSdk : String → Except String Image) :
    List SdkCall × Except CmdError Unit :=
  let id0 := args.headD ""
  let idE : Except CmdError String :=
    if nonInteractive then .ok id0
    else
      match ask "Image id: " id0 with
      | .error e => .error (.promptFailed e)
      | .ok v => .ok v
  match idE with
  | .error e => ([], .error e)
  | .ok id =>
    if id.length = 0 then ([], .error .missingImageId)
    else
      match getClientResult with
      | .error e => ([], .error (.transport e))
      | .ok _ =>
        match imagesGetSdk id with
        | .error e => ([.getClient, .imagesGet id], .error (.transport e))
        | .ok _ => ([.getClient, .imagesGet id], .ok ())

/-- The interactive prompt pass of createImage (src/unnamed/part_001 lines
245-297): prompt for name (defaulting to the file base name), replication
type (default EAGER) and scope (default project); validate the scope; for
project scope without a project flag, read the default project from the
configuration, prompt if still empty, and reject an empty project id. -/
def resolveImagePrompts (nonInteractive : Bool)
    (nameFlag replicationFlag scopeFlag projectFlag : String)
    (fullPath : String)
    (ask : String → String → Except String String)
    (loadConfig : Except String Config) :
    Except CmdError (String × String × String) :=
  if nonInteractive then .ok (nameFlag, replicationFlag, projectFlag)
  else
    match ask ("Image name (default: " ++ pathBase fullPath ++ "): ") nameFlag with
    | .error e => .error (.promptFailed e)
    | .ok name0 =>
      let name := if name0.length = 0 then pathBase fullPath else name0
      match ask "Image replication type (default: EAGER): " replicationFlag with
      | .error e => .error (.promptFailed e)
      | .ok repl0 =>
        let replicationType := if repl0.length = 0 then "EAGER" else repl0
        match ask "Image scope (default: project): " scopeFlag with
        | .error e => .error (.promptFailed e)
        | .ok scope0 =>
          let scope := if scope0.length = 0 then "project" else scope0
          if scope ≠ "infrastructure" ∧ scope ≠ "infra" ∧ scope ≠ "project" then
            .error (.unsupportedScope scope)
          else if scope = "project" ∧ projectFlag.length = 0 then
            match loadConfig with
            | .error e => .error (.other e)
            | .ok config =>
              let projectID := config.projectId.getD ""
              if projectID.length = 0 then
                match ask "Project ID: " projectID with
                | .error e => .error (.promptFailed e)
                | .ok pid =>
                  if pid.length = 0 then .error .missingProjectId
                  else .ok (name, replicationType, pid)
              else .ok (name, replicationType, projectID)
          else .ok (name, replicationType, projectFlag)

/-- createImage from src/unnamed/part_001 lines 213-345: reject more than one
positional argument; resolve the image path (prompting when interactive) and
reject an empty path or a missing file before opening the file or building
the client; resolve the remaining prompts; open the file, construct the
client, issue Images.Create (or Projects.CreateImage when a project id is
set), poll the upload task, close the file, and when formatting is requested
fetch the image by the entity id returned by the poller. -/
def createImage (nonInteractive needsFmt : Bool) (args : List String)
    (nameFlag replicationFlag scopeFlag projectFlag : String)
    (ask : String → String → Except String String)
    (absPath : String → Except String String)
    (fileExists : String → Bool)
    (openFile : String → Except String Unit)
    (closeFile : Except String Unit)
    (loadConfig : Except String Config)
    (getClientResult : Except String Unit)
    (imagesCreateSdk : String → Option ImageCreateOptions → Except String Task)
    (projectsCreateImageSdk : String → String → Option ImageCreateOptions → Except String Task)
    (fetches : List Task)
    (imagesGetSdk : String → Except String Image) :
    List SdkCall × Except CmdError Unit :=
  if 1 < args.length then ([], .error (.unknownArgument (args.drop 1)))
  else
    let filePath0 := args.headD ""
    let filePathE : Except CmdError String :=
      if nonInteractive then .ok filePath0
      else
        match ask "Image path: " filePath0 with
        | .error e => .error (.promptFailed e)
        | .ok v => .ok v
    match filePathE with
    | .error e => ([], .error e)
    | .ok filePath =>
      if filePath.length = 0 then ([], .error .missingImagePath)
      else
        match absPath filePath with
        | .error e => ([], .error (.other e))
        | .ok fullPath =>
          if ¬ fileExists fullPath then ([], .error .noSuchImageFile)
          else
            match resolveImagePrompts nonInteractive nameFlag replicationFlag scopeFlag
                projectFlag fullPath ask loadConfig with
            | .error e => ([], .error e)
            | .ok (name, replicationType, projectID) =>
              match openFile fullPath with
              | .error e => ([], .error (.other e))
              | .ok _ =>
                match getClientResult with
                | .error e => ([], .error (.transport e))
                | .ok _ =>
                  let options : Option ImageCreateOptions :=
                    if replicationType.length = 0 then none else some ⟨replicationType⟩
                  let createResult :=
                    if projectID.length = 0 then imagesCreateSdk name options
                    else projectsCreateImageSdk projectID name options
                  let createCall :=
                    if projectID.length = 0 then SdkCall.imagesCreate name
                    else SdkCall.projectsCreateImage projectID name
                  match createResult with
                  | .error e => ([.getClient, createCall], .error (.transport e))
                  | .ok task =>
                    match pollTask fetches with
                    | (.error err, n) =>
                        ([.getClient, createCall] ++ taskFetchCalls task.id n, .error err)
                    | (.ok imageID, n) =>
                      match closeFile with
                      | .error e =>
                          ([.getClient, createCall] ++ taskFetchCalls task.id n,
                           .error (.other e))
                      | .ok _ =>
                        if needsFmt then
                          match imagesGetSdk imageID with
                          | .error e =>
                              ([.getClient, createCall] ++ taskFetchCalls task.id n
                                 ++ [.imagesGet imageID], .error (.transport e))
                          | .ok _ =>
                              ([.getClient, createCall] ++ taskFetchCalls task.id n
                                 ++ [.imagesGet imageID], .ok ())
                        else ([.getClient, createCall] ++ taskFetchCalls task.id n, .ok ())

/-- The tail of createProject shared by both quota branches (src/photon/
command/projects.go lines 399-415): issue Tenants.CreateProject, poll the
task, and when formatting is requested fetch the project by the returned
entity id. -/
def createProjectFinish (baseTrace : List SdkCall) (tenantId : String)
    (spec : ProjectCreateSpec) (needsFmt : Bool)
    (createProjectSdk : String → ProjectCreateSpec → Except String Task)
    (fetches : List Task)
    (projectsGetSdk : String → Except String Unit) :
    List SdkCall × Except CmdError Unit :=
  match createProjectSdk tenantId spec with
  | .error e => (baseTrace ++ [.tenantsCreateProject tenantId spec], .error (.transport e))
  | .ok task =>
    match pollTask fetches with
    | (.error err, n) =>
        (baseTrace ++ .tenantsCreateProject tenantId spec :: taskFetchCalls task.id n,
         .error err)
    | (.ok pid, n) =>
      if needsFmt then
        match projectsGetSdk pid with
        | .error e =>
            (baseTrace ++ .tenantsCreateProject tenantId spec ::
               (taskFetchCalls task.id n ++ [.projectsGet pid]), .error (.transport e))
        | .ok _ =>
            (baseTrace ++ .tenantsCreateProject tenantId spec ::
               (taskFetchCalls task.id n ++ [.projectsGet pid]), .ok ())
      else
        (baseTrace ++ .tenantsCreateProject tenantId spec :: taskFetchCalls task.id n,
         .ok ())

/-- createProject from src/photon/command/projects.go lines 302-421: check
arity, default the router CIDR, construct the client, resolve the tenant,
reject setting both the limits and the percent flags, parse limits / build
the percent line item, prompt when interactive, and when confirmed build the
quota (from the tenant quota scaled by percent, or from the limits list),
issue the create and poll it, fetching the project for formatting.  The Go
float64 percent flag is modelled as a rational (an unset flag reads as 0,
matching the flag library). -/
def createProject (nonInteractive userConfirms needsFmt : Bool) (args : List String)
    (tenantFlag limitsFlag : String) (percentFlag : ℚ) (limitsSet percentSet : Bool)
    (securityGroupsFlag cidrFlag : String)
    (ask : String → String → Except String String)
    (askLimits : Option (List QuotaLineItem) → Except String (Option (List QuotaLineItem)))
    (parseLimits : String → Except String (List QuotaLineItem))
    (convertQuota : List QuotaLineItem → List (String × QuotaStatusLineItem))
    (getClientResult : Except String Unit)
    (verifyTenantSdk : String → Except String Tenant)
    (getQuota : String → Except String (Option Quota))
    (createProjectSdk : String → ProjectCreateSpec → Except String Task)
    (fetches : List Task)
    (projectsGetSdk : String → Except String Unit) :
    List SdkCall × Except CmdError Unit :=
  match checkArgCount args 1 with
  | .error e => ([], .error e)
  | .ok _ =>
    let name0 := args.headD ""
    let cidr := if cidrFlag.length = 0 then "192.168.0.0/16" else cidrFlag
    let percent0 : ℚ := percentFlag / 100
    match getClientResult with
    | .error e => ([], .error (.transport e))
    | .ok _ =>
      match verifyTenantSdk tenantFlag with
      | .error e => ([.getClient, .verifyTenant tenantFlag], .error (.transport e))
      | .ok tenant =>
        if limitsSet ∧ percentSet then
          ([.getClient, .verifyTenant tenantFlag], .error .onlyOneOfLimitsOrPercent)
        else
          let step1 : Except CmdError (ℚ × Option (List QuotaLineItem)) :=
            if limitsSet then
              match parseLimits limitsFlag with
              | .error e => .error (.other e)
              | .ok l => .ok (0, some l)
            else .ok (percent0, none)
          match step1 with
          | .error e => ([.getClient, .verifyTenant tenantFlag], .error e)
          | .ok (percent, limitsList0) =>
            let limitsList1 : Option (List QuotaLineItem) :=
              if percentSet then some [⟨"subdivide.percent", percent, "COUNT"⟩]
              else limitsList0
            let step2 : Except CmdError (String × Option (List QuotaLineItem)) :=
              if nonInteractive then .ok (name0, limitsList1)
              else
                match ask "Project name: " name0 with
                | .error e => .error (.promptFailed e)
                | .ok n =>
                  match askLimits limitsList1 with
                  | .error e => .error (.promptFailed e)
                  | .ok l => .ok (n, l)
            match step2 with
            | .error e => ([.getClient, .verifyTenant tenantFlag], .error e)
            | .ok (name, limitsList) =>
              if confirmed nonInteractive userConfirms then
                let securityGroups :=
                  if 0 < securityGroupsFlag.length then splitCommaWS securityGroupsFlag
                  else []
                if 0 < percent then
                  match getQuota tenant.id with
                  | .error e =>
                      ([.getClient, .verifyTenant tenantFlag, .tenantsGetQuota tenant.id],
                       .error (.transport e))
                  | .ok tenantQuota =>
                    let quotaItems :=
                      match tenantQuota with
                      | none => []
                      | some q => q.quotaLineItems.map fun kv =>
                          (kv.1, QuotaStatusLineItem.mk kv.2.unit (kv.2.limit * percent) 0)
                    createProjectFinish
                      [.getClient, .verifyTenant tenantFlag, .tenantsGetQuota tenant.id]
                      tenant.id ⟨name, cidr, securityGroups, ⟨quotaItems⟩⟩ needsFmt
                      createProjectSdk fetches projectsGetSdk
                else
                  let quotaItems :=
                    match limitsList with
                    | some l => convertQuota l
                    | none => []
                  createProjectFinish [.getClient, .verifyTenant tenantFlag]
                    tenant.id ⟨name, cidr, securityGroups, ⟨quotaItems⟩⟩ needsFmt
                    createProjectSdk fetches projectsGetSdk
              else ([.getClient, .verifyTenant tenantFlag], .ok ())

/-- One step of the destroy-all-deployments command, as a trace alphabet. -/
inductive DestroyOp where
  | getDeployments
  | getHosts (deployment : String)
  | deleteHost (host : String)
  | awaitCompleted (taskOf : String)
  | destroyDeployment (deployment : String)
deriving DecidableEq

/-- Deleting one host: issue the delete and poll its task to COMPLETED. -/
def hostsOps : List String → List DestroyOp
  | [] => []
  | h :: hs => DestroyOp.deleteHost h :: DestroyOp.awaitCompleted h :: hostsOps hs

/-- Destroying one deployment: list its hosts, delete each host awaiting its
task, then issue the deployment's destroy and await it. -/
def deploymentOps (d : String) (hosts : List String) : List DestroyOp :=
  DestroyOp.getHosts d ::
    (hostsOps hosts ++ [DestroyOp.destroyDeployment d, DestroyOp.awaitCompleted d])

/-- The per-deployment sequence, deployments processed in order. -/
def destroySeq : List (String × List String) → List DestroyOp
  | [] => []
  | (d, hs) :: rest => deploymentOps d hs ++ destroySeq rest

/-- Modelled from the spec: the destroy-all-deployments command (its
implementation is not under src/, only the TestDestroy fixture is; spec 5 and
8).  The command lists the deployments and processes them sequentially: for
each deployment it deletes every host, polling each host-delete task to
COMPLETED, before issuing that deployment's destroy call. -/
def destroyAllDeployments (ds : List (String × List String)) : List DestroyOp :=
  DestroyOp.getDeployments :: destroySeq ds

/-- a occurs strictly before b somewhere in the trace. -/
def precedes {γ : Type} (a b : γ) (tr : List γ) : Prop :=
  ∃ i j : Nat, i < j ∧ tr[i]? = some a ∧ tr[j]? = some b

/-- Example tasks mirroring the fixtures of physical-networks_test.go. -/
def queuedNetTask : Task :=
  ⟨"task-1", "CREATE_NETWORK", "QUEUED", ⟨"network", "network-ID"⟩, ""⟩

def completedNetTask : Task :=
  ⟨"task-1", "CREATE_NETWORK", "COMPLETED", ⟨"network", "network-ID"⟩, ""⟩

def erroredNetTask : Task :=
  ⟨"task-1", "CREATE_NETWORK", "ERROR", ⟨"network", "network-ID"⟩, "boom"⟩

def bogusStateTask : Task :=
  ⟨"task-1", "CREATE_NETWORK", "BOGUS", ⟨"network", "network-ID"⟩, ""⟩

/-- Example image tasks mirroring the fixtures of src/unnamed/part_000. -/
def queuedImageTask : Task :=
  ⟨"task-9", "CREATE_IMAGE", "QUEUED", ⟨"image", "1"⟩, ""⟩

def completedImageTask : Task :=
  ⟨"task-9", "CREATE_IMAGE", "COMPLETED", ⟨"image", "1"⟩, ""⟩

/-- Example pages mirroring the three-page scenario of spec section 8. -/
def pageA : Page String := ⟨["a", "b"], "L2", ""⟩

def pageB : Page String := ⟨["c"], "L3", ""⟩

def pageC : Page String := ⟨[], "", ""⟩

/-- Example image pages mirroring TestFindImagesByName. -/
def imagePage1 : Page Image :=
  ⟨[⟨"1", "test"⟩, ⟨"2", "test2"⟩], "fake-next-page-link", ""⟩

def imagePage2 : Page Image := ⟨[], "", ""⟩

/- ------------------------------------------------------------------ -/
/- Theorems                                                            -/
/- ------------------------------------------------------------------ -/

lemma recognizedNonTerminal_ne {s : String} (h : recognizedNonTerminal s = true) :
    s ≠ "COMPLETED" ∧ s ≠ "ERROR" := by
  simp only [recognizedNonTerminal, Bool.or_eq_true, decide_eq_true_eq] at h
  rcases h with (h | h) | h <;> subst h <;> exact ⟨by decide, by decide⟩

lemma pollTask_completed (t : Task) (rest : List Task) (h : t.state = "COMPLETED") :
    pollTask (t :: rest) = (.ok t.entity.id, 1) := by
  simp [pollTask, h]

lemma pollTask_error (t : Task) (rest : List Task) (h : t.state = "ERROR") :
    pollTask (t :: rest) = (.error (.taskFailed t.operation t.message), 1) := by
  simp [pollTask, h]

lemma pollTask_pending (t : Task) (rest : List Task)
    (h : recognizedNonTerminal t.state = true) :
    pollTask (t :: rest) = ((pollTask rest).1, (pollTask rest).2 + 1) := by
  obtain ⟨h1, h2⟩ := recognizedNonTerminal_ne h
  simp [pollTask, h, h1, h2]

lemma pollTask_unknown (t : Task) (rest : List Task)
    (h1 : t.state ≠ "COMPLETED") (h2 : t.state ≠ "ERROR")
    (h3 : recognizedNonTerminal t.state = false) :
    pollTask (t :: rest) = (.error (.unknownTaskState t.state), 1) := by
  simp [pollTask, h1, h2, h3]

/-- C1: for a fetched state sequence of n recognized non-terminal observations
followed by COMPLETED, the poller returns the entity id in exactly n+1
fetches; for a sequence whose first terminal observation is ERROR, it fails
with TaskFailed carrying the operation and message, and performs no fetch
beyond the ERROR observation (the count is n+1 whatever follows). -/
theorem poller_terminal_behavior (pre : List Task) (t : Task) (post : List Task)
    (hpre : ∀ u ∈ pre, recognizedNonTerminal u.state = true) :
    (t.state = "COMPLETED" →
      pollTask (pre ++ [t]) = (.ok t.entity.id, pre.length + 1)) ∧
    (t.state = "ERROR" →
      pollTask (pre ++ t :: post) =
        (.error (.taskFailed t.operation t.message), pre.length + 1)) := by
  induction pre with
  | nil =>
    refine ⟨fun h => ?_, fun h => ?_⟩
    · simpa using pollTask_completed t [] h
    · simpa using pollTask_error t post h
  | cons u pre ih =>
    have hu : recognizedNonTerminal u.state = true := hpre u (List.mem_cons_self u pre)
    have hpre' : ∀ v ∈ pre, recognizedNonTerminal v.state = true :=
      fun v hv => hpre v (List.mem_cons_of_mem u hv)
    obtain ⟨ihC, ihE⟩ := ih hpre'
    refine ⟨fun h => ?_, fun h => ?_⟩
    · rw [List.cons_append, pollTask_pending u _ hu, ihC h]
      simp [Nat.add_comm, Nat.add_assoc, Nat.add_left_comm]
    · rw [List.cons_append, pollTask_pending u _ hu, ihE h]
      simp [Nat.add_comm, Nat.add_assoc, Nat.add_left_comm]

theorem poller_terminal_behavior_witness :
    pollTask ([queuedNetTask, queuedNetTask] ++ [completedNetTask]) =
      (.ok "network-ID", 3) ∧
    pollTask ([queuedNetTask] ++ erroredNetTask :: [completedNetTask]) =
      (.error (.taskFailed "CREATE_NETWORK" "boom"), 2) :=
  ⟨(poller_terminal_behavior [queuedNetTask, queuedNetTask] completedNetTask []
      (by decide)).1 (by decide),
   (poller_terminal_behavior [queuedNetTask] erroredNetTask [completedNetTask]
      (by decide)).2 (by decide)⟩

/-- C3: a fetched state outside the recognized set stops the poller right
away with UnknownTaskState: the fetch count is the position of the offending
observation plus one, whatever responses would have followed. -/
theorem poller_unknown_state_stops (pre : List Task) (t : Task) (post : List Task)
    (hpre : ∀ u ∈ pre, recognizedNonTerminal u.state = true)
    (h1 : t.state ≠ "COMPLETED") (h2 : t.state ≠ "ERROR")
    (h3 : recognizedNonTerminal t.state = false) :
    pollTask (pre ++ t :: post) =
      (.error (.unknownTaskState t.state), pre.length + 1) := by
  induction pre with
  | nil => simpa using pollTask_unknown t post h1 h2 h3
  | cons u pre ih =>
    have hu : recognizedNonTerminal u.state = true := hpre u (List.mem_cons_self u pre)
    have hpre' : ∀ v ∈ pre, recognizedNonTerminal v.state = true :=
      fun v hv => hpre v (List.mem_cons_of_mem u hv)
    rw [List.cons_append, pollTask_pending u _ hu, ih hpre']
    simp [Nat.add_comm, Nat.add_assoc, Nat.add_left_comm]

theorem poller_unknown_state_stops_witness :
    pollTask ([queuedNetTask] ++ bogusStateTask :: [completedNetTask]) =
      (.error (.unknownTaskState "BOGUS"), 2) :=
  poller_unknown_state_stops [queuedNetTask] bogusStateTask [completedNetTask]
    (by decide) (by decide) (by decide) (by decide)

/-- C2: over a well-linked page sequence the walker returns the concatenation
of the items lists in encountered order, in exactly one fetch per page. -/
theorem walker_accumulates_in_order {α : Type} (ps : List (Page α))
    (h : WellLinked ps) :
    walkPages (ps.map Except.ok) = (.ok (ps.map Page.items).flatten, ps.length) := by
  induction h with
  | last p hp => simp [walkPages, hp]
  | cons p ps hne t ih => simp [walkPages, hne, ih]

theorem walker_accumulates_in_order_witness :
    walkPages ([pageA, pageB, pageC].map Except.ok) =
      (.ok ["a", "b", "c"], 3) := by
  rw [walker_accumulates_in_order [pageA, pageB, pageC]
    (WellLinked.cons _ _ (by decide)
      (WellLinked.cons _ _ (by decide) (WellLinked.last _ (by decide))))]
  rfl

lemma walkPages_fetch_error {α : Type} (good : List (Page α)) (e : String)
    (rest : List (Except String (Page α)))
    (hg : ∀ p ∈ good, p.nextPageLink ≠ "") :
    walkPages (good.map Except.ok ++ Except.error e :: rest) =
      (.error e, good.length + 1) := by
  induction good with
  | nil => simp [walkPages]
  | cons p good ih =>
    have hp : p.nextPageLink ≠ "" := hg p (List.mem_cons_self p good)
    have ih' := ih (fun q hq => hg q (List.mem_cons_of_mem p hq))
    simp [walkPages, hp, ih']

/-- C4: a failing page fetch aborts the walk with that error and no partial
item list, and listImages surfaces the error, printing no items. -/
theorem walker_fetch_failure_all_or_nothing (good : List (Page Image)) (e : String)
    (rest : List (Except String (Page Image))) (nameFlag : String)
    (hg : ∀ p ∈ good, p.nextPageLink ≠ "") :
    walkPages (good.map Except.ok ++ Except.error e :: rest) =
      (.error e, good.length + 1) ∧
    listImages [] nameFlag (.ok ()) (good.map Except.ok ++ Except.error e :: rest) =
      ([.getClient, .imagesGetAll nameFlag], .error (.transport e)) := by
  have hw := walkPages_fetch_error good e rest hg
  exact ⟨hw, by simp [listImages, checkArgCount, hw]⟩

theorem walker_fetch_failure_all_or_nothing_witness :
    walkPages ([imagePage1].map Except.ok ++ Except.error "boom" :: []) =
      (.error "boom", 2) ∧
    listImages [] "test" (.ok ()) ([imagePage1].map Except.ok ++ Except.error "boom" :: []) =
      ([.getClient, .imagesGetAll "test"], .error (.transport "boom")) :=
  walker_fetch_failure_all_or_nothing [imagePage1] "boom" [] "test" (by decide)

lemma mem_getElem? {γ : Type} {a : γ} {l : List γ} (h : a ∈ l) :
    ∃ n : Nat, l[n]? = some a := by
  obtain ⟨n, hn⟩ := List.get?_of_mem h
  exact ⟨n, by simpa [List.get?_eq_getElem?] using hn⟩

lemma precedes_append {γ : Type} {a b : γ} {xs ys : List γ}
    (ha : a ∈ xs) (hb : b ∈ ys) : precedes a b (xs ++ ys) := by
  obtain ⟨i, hi⟩ := mem_getElem? ha
  obtain ⟨j, hj⟩ := mem_getElem? hb
  have hlt : i < xs.length := (List.getElem?_eq_some.mp hi).1
  refine ⟨i, xs.length + j, by omega, ?_, ?_⟩
  · rw [List.getElem?_append_left hlt]; exact hi
  · rw [List.getElem?_append_right (Nat.le_add_right _ _)]
    simpa [Nat.add_sub_cancel_left] using hj

lemma awaitCompleted_mem_hostsOps {h : String} {hs : List String} (hm : h ∈ hs) :
    DestroyOp.awaitCompleted h ∈ hostsOps hs := by
  induction hs with
  | nil => cases hm
  | cons x hs ih =>
    rcases List.mem_cons.mp hm with rfl | hm'
    · simp [hostsOps]
    · simp [hostsOps, ih hm']

lemma destroySeq_decomp (ds : List (String × List String)) (i : Nat)
    (hi : i < ds.length) :
    ∃ A B, destroySeq ds = A ++ deploymentOps ds[i].1 ds[i].2 ++ B := by
  induction ds generalizing i with
  | nil => simp at hi
  | cons p rest ih =>
    obtain ⟨d, hs⟩ := p
    cases i with
    | zero => exact ⟨[], destroySeq rest, by simp [destroySeq]⟩
    | succ i' =>
      obtain ⟨A, B, hAB⟩ := ih i' (by simpa using Nat.lt_of_succ_lt_succ (by simpa using hi))
      exact ⟨deploymentOps d hs ++ A, B, by simp [destroySeq, hAB, List.append_assoc]⟩

lemma destroySeq_decomp₂ (ds : List (String × List String)) (i j : Nat)
    (hij : i < j) (hj : j < ds.length) :
    ∃ A B C, destroySeq ds =
      A ++ deploymentOps (ds.get ⟨i, Nat.lt_trans hij hj⟩).1
            (ds.get ⟨i, Nat.lt_trans hij hj⟩).2 ++ B ++
        deploymentOps (ds.get ⟨j, hj⟩).1 (ds.get ⟨j, hj⟩).2 ++ C := by
  induction ds generalizing i j with
  | nil => simp at hj
  | cons p rest ih =>
    obtain ⟨d, hs⟩ := p
    cases i with
    | zero =>
      cases j with
      | zero => omega
      | succ j' =>
        obtain ⟨A, B, hAB⟩ :=
          destroySeq_decomp rest j' (by simpa using Nat.lt_of_succ_lt_succ (by simpa using hj))
        refine ⟨[], A, B, ?_⟩
        simp [destroySeq, hAB, List.append_assoc]
    | succ i' =>
      cases j with
      | zero => omega
      | succ j' =>
        obtain ⟨A, B, C, hABC⟩ :=
          ih i' j' (Nat.lt_of_succ_lt_succ hij)
            (by simpa using Nat.lt_of_succ_lt_succ (by simpa using hj))
        exact ⟨deploymentOps d hs ++ A, B, C, by simp [destroySeq, hABC, List.append_assoc]⟩

lemma destroyDeployment_mem_deploymentOps (d : String) (hs : List String) :
    DestroyOp.destroyDeployment d ∈ deploymentOps d hs := by
  simp [deploymentOps]

/-- C5: in the destroy-all-deployments trace, every host-delete of a
deployment is polled to COMPLETED before that deployment's destroy call, and
deployments are processed sequentially: the destroy of an earlier deployment
precedes even the host listing of any later one. -/
theorem destroy_all_deployments_ordering (ds : List (String × List String))
    (i : Nat) (hi : i < ds.length) :
    (∀ h ∈ ds[i].2,
      precedes (DestroyOp.awaitCompleted h) (DestroyOp.destroyDeployment ds[i].1)
        (destroyAllDeployments ds)) ∧
    (∀ j : Nat, ∀ hj : j < ds.length, i < j →
      precedes (DestroyOp.destroyDeployment ds[i].1) (DestroyOp.getHosts ds[j].1)
        (destroyAllDeployments ds)) := by
  constructor
  · intro h hm
    obtain ⟨A, B, hAB⟩ := destroySeq_decomp ds i hi
    have hsplit : destroyAllDeployments ds =
        (DestroyOp.getDeployments :: A ++ DestroyOp.getHosts ds[i].1 :: hostsOps ds[i].2)
          ++ (DestroyOp.destroyDeployment ds[i].1 ::
                DestroyOp.awaitCompleted ds[i].1 :: B) := by
      simp [destroyAllDeployments, hAB, deploymentOps, List.append_assoc]
    rw [hsplit]
    exact precedes_append
      (List.mem_append_right _ (List.mem_cons_of_mem _ (awaitCompleted_mem_hostsOps hm)))
      (List.mem_cons_self _ _)
  · intro j hj hij
    obtain ⟨A, B, C, hABC⟩ := destroySeq_decomp₂ ds i j hij hj
    have hsplit : destroyAllDeployments ds =
        (DestroyOp.getDeployments :: A ++ deploymentOps ds[i].1 ds[i].2)
          ++ (B ++ deploymentOps ds[j].1 ds[j].2 ++ C) := by
      simp only [destroyAllDeployments, hABC]
      simp [List.append_assoc, List.get_eq_getElem]
    rw [hsplit]
    exact precedes_append
      (List.mem_append_right _ (destroyDeployment_mem_deploymentOps _ _))
      (List.mem_append_left _ (List.mem_append_right _ (by simp [deploymentOps])))

/-- C6 counterexample: showImage, whose usage is a single image-id argument,
accepts two positional arguments without any argument-count error, proceeds
to the SDK get call with the first argument and succeeds — so not every
handler validates the positional argument count before its SDK call. -/
theorem showImage_skips_arity_check :
    showImage true ["imgX", "imgY"] askKeep (.ok ())
        (fun i => .ok ⟨i, "test"⟩) =
      ([.getClient, .imagesGet "imgX"], .ok ()) := rfl

/-- C6 amended: the handlers that begin with checkArgCount (deleteNetwork,
setDefaultNetwork, listImages, createPhysicalNetwork, createProject) fail
with an argument-count error on any arity mismatch — too few or too many —
before performing any SDK call; createImage rejects only too many arguments
(more than one), with its own unknown-argument error; and showImage performs
no argument-count validation at all, proceeding on extra arguments. -/
theorem arg_count_validation_amended :
    (∀ (nonInteractive userConfirms : Bool) (args : List String)
        (gc : Except String Unit) (ig : Except String Info)
        (dr : Except String Task) (fs : List Task),
      args.length ≠ 1 →
        deleteNetwork nonInteractive userConfirms args gc ig dr fs =
          ([], .error (.argCount args.length 1))) ∧
    (∀ (nonInteractive userConfirms needsFmt : Bool) (args : List String)
        (gc : Except String Unit) (ig : Except String Info)
        (sr : Except String Task) (fs : List Task)
        (ng : String → Except String Network),
      args.length ≠ 1 →
        setDefaultNetwork nonInteractive userConfirms needsFmt args gc ig sr fs ng =
          ([], .error (.argCount args.length 1))) ∧
    (∀ (args : List String) (nameFlag : String) (gc : Except String Unit)
        (rs : List (Except String (Page Image))),
      args.length ≠ 0 →
        listImages args nameFlag gc rs = ([], .error (.argCount args.length 0))) ∧
    (∀ (nonInteractive needsFmt : Bool) (args : List String)
        (nf df pf : String) (ask : String → String → Except String String)
        (gc : Except String Unit) (cs : NetworkCreateSpec → Except String Task)
        (fs : List Task) (ng : String → Except String Network),
      args.length ≠ 0 →
        createPhysicalNetwork nonInteractive needsFmt args nf df pf ask gc cs fs ng =
          ([], .error (.argCount args.length 0))) ∧
    (∀ (nonInteractive userConfirms needsFmt : Bool) (args : List String)
        (tenantFlag limitsFlag : String) (percentFlag : ℚ)
        (limitsSet percentSet : Bool) (securityGroupsFlag cidrFlag : String)
        (ask : String → String → Except String String)
        (askLimits : Option (List QuotaLineItem) →
          Except String (Option (List QuotaLineItem)))
        (parseLimits : String → Except String (List QuotaLineItem))
        (convertQuota : List QuotaLineItem → List (String × QuotaStatusLineItem))
        (gc : Except String Unit) (vt : String → Except String Tenant)
        (gq : String → Except String (Option Quota))
        (cp : String → ProjectCreateSpec → Except String Task)
        (fs : List Task) (pg : String → Except String Unit),
      args.length ≠ 1 →
        createProject nonInteractive userConfirms needsFmt args tenantFlag limitsFlag
            percentFlag limitsSet percentSet securityGroupsFlag cidrFlag ask askLimits
            parseLimits convertQuota gc vt gq cp fs pg =
          ([], .error (.argCount args.length 1))) ∧
    (∀ (nonInteractive needsFmt : Bool) (args : List String)
        (nf rf sf pf : String) (ask : String → String → Except String String)
        (ap : String → Except String String) (fe : String → Bool)
        (op : String → Except String Unit) (cl : Except String Unit)
        (lc : Except String Config) (gc : Except String Unit)
        (ic : String → Option ImageCreateOptions → Except String Task)
        (pc : String → String → Option ImageCreateOptions → Except String Task)
        (fs : List Task) (ig : String → Except String Image),
      1 < args.length →
        createImage nonInteractive needsFmt args nf rf sf pf ask ap fe op cl lc gc
            ic pc fs ig =
          ([], .error (.unknownArgument (args.drop 1)))) ∧
    (showImage true ["netX", "netY"] askKeep (.ok ()) (fun i => .ok ⟨i, "t"⟩) =
      ([.getClient, .imagesGet "netX"], .ok ())) := by
  refine ⟨?_, ?_, ?_, ?_, ?_, ?_, rfl⟩
  · intro _ _ args _ _ _ _ h
    simp [deleteNetwork, checkArgCount, h]
  · intro _ _ _ args _ _ _ _ _ h
    simp [setDefaultNetwork, checkArgCount, h]
  · intro args _ _ _ h
    simp [listImages, checkArgCount, h]
  · intro _ _ args _ _ _ _ _ _ _ _ h
    simp [createPhysicalNetwork, checkArgCount, h]
  · intro _ _ _ args _ _ _ _ _ _ _ _ _ _ _ _ _ _ _ _ _ h
    simp [createProject, checkArgCount, h]
  · intro _ _ args _ _ _ _ _ _ _ _ _ _ _ _ _ _ _ h
    simp [createImage, h]

theorem arg_count_validation_amended_witness :
    deleteNetwork true true ["a", "b"] (.ok ()) (.ok ⟨"PHYSICAL"⟩) (.error "x") [] =
      ([], .error (.argCount 2 1)) ∧
    listImages ["a"] "" (.ok ()) [] = ([], .error (.argCount 1 0)) ∧
    createImage true false ["a", "b", "c"] "" "" "" "" askKeep
        (fun s => .ok s) (fun _ => true) (fun _ => .ok ()) (.ok ()) (.ok ⟨none⟩)
        (.ok ()) (fun _ _ => .error "x") (fun _ _ _ => .error "x") []
        (fun i => .ok ⟨i, ""⟩) =
      ([], .error (.unknownArgument ["b", "c"])) :=
  ⟨arg_count_validation_amended.1 true true ["a", "b"] (.ok ()) (.ok ⟨"PHYSICAL"⟩)
      (.error "x") [] (by decide),
   arg_count_validation_amended.2.2.1 ["a"] "" (.ok ()) [] (by decide),
   arg_count_validation_amended.2.2.2.2.2.1 true false ["a", "b", "c"] "" "" "" ""
      askKeep (fun s => .ok s) (fun _ => true) (fun _ => .ok ()) (.ok ())
      (.ok ⟨none⟩) (.ok ()) (fun _ _ => .error "x") (fun _ _ _ => .error "x") []
      (fun i => .ok ⟨i, ""⟩) (by decide)⟩

/-- C7: evaluating setDefaultNetwork at a declined confirmation (interactive
mode, user answers no): the mutating Networks.SetDefault call is issued
before the confirmation is consulted, and the command then reports success
(printing its cancellation message) — the remote state is not unchanged. -/
theorem set_default_network_mutates_despite_decline :
    setDefaultNetwork false false false ["net1"] (.ok ()) (.ok ⟨"PHYSICAL"⟩)
        (.ok completedNetTask) [] (fun i => .ok ⟨i, ""⟩) =
      ([.getClient, .getClient, .infoGet, .networksSetDefault "net1"], .ok ()) := rfl

theorem destroy_all_deployments_ordering_witness :
    precedes (DestroyOp.awaitCompleted "fake-host-id") (DestroyOp.destroyDeployment "1")
      (destroyAllDeployments [("1", ["fake-host-id"]), ("2", ["fake-host-id"])]) ∧
    precedes (DestroyOp.destroyDeployment "1") (DestroyOp.getHosts "2")
      (destroyAllDeployments [("1", ["fake-host-id"]), ("2", ["fake-host-id"])]) :=
  ⟨(destroy_all_deployments_ordering [("1", ["fake-host-id"]), ("2", ["fake-host-id"])]
      0 (by decide)).1 "fake-host-id" (by decide),
   (destroy_all_deployments_ordering [("1", ["fake-host-id"]), ("2", ["fake-host-id"])]
      0 (by decide)).2 1 (by decide) (by decide)⟩

lemma string_length_zero {s : String} (h : s.length = 0) : s = "" := by
  cases s with
  | mk data =>
    cases data with
    | nil => rfl
    | cons a l => simp [String.length] at h

lemma taskFetchCalls_filter (p : SdkCall → Bool) (id : String) (n : Nat)
    (h : p (SdkCall.taskGet id) = false) : (taskFetchCalls id n).filter p = [] := by
  induction n with
  | zero => simp [taskFetchCalls]
  | succ n ih =>
    have hc : taskFetchCalls id (n + 1) = SdkCall.taskGet id :: taskFetchCalls id n := by
      simp [taskFetchCalls, List.replicate_succ]
    rw [hc, List.filter_cons]
    simp only [h, Bool.false_eq_true, if_false]
    exact ih

/-- C8: when a create handler succeeds (create accepted, task polled to
COMPLETED), with formatting requested it issues exactly one get-by-id call,
using the entity id returned by the poller, and succeeds; with no formatting
requested it issues no get-by-id call.  Shown for createPhysicalNetwork and
for createImage. -/
theorem create_formatting_get_by_id
    (nonInteractive : Bool) (nameFlag descFlag pgFlag : String)
    (ask : String → String → Except String String)
    (name desc pg : String)
    (createSdk : NetworkCreateSpec → Except String Task)
    (fetches : List Task) (networksGetSdk : String → Except String Network)
    (task : Task) (eid : String) (n : Nat) (nw : Network)
    (hres : resolveNetworkPrompts nonInteractive ask nameFlag descFlag pgFlag =
      .ok (name, desc, pg))
    (hname : name ≠ "") (hpg : pg ≠ "")
    (hcreate : createSdk ⟨name, desc, splitCommaWS pg⟩ = .ok task)
    (hpoll : pollTask fetches = (.ok eid, n))
    (hget : networksGetSdk eid = .ok nw)
    (fp p iname irepl iscope : String)
    (absPath : String → Except String String) (fileExists : String → Bool)
    (openFile : String → Except String Unit)
    (loadConfig : Except String Config)
    (imagesCreateSdk : String → Option ImageCreateOptions → Except String Task)
    (projectsCreateImageSdk : String → String → Option ImageCreateOptions →
      Except String Task)
    (fetches2 : List Task) (imagesGetSdk : String → Except String Image)
    (task2 : Task) (eid2 : String) (n2 : Nat) (img : Image)
    (hfp : fp ≠ "") (habs : absPath fp = .ok p) (hex : fileExists p = true)
    (hopen : openFile p = .ok ())
    (hicreate : imagesCreateSdk iname
        (if irepl.length = 0 then none else some ⟨irepl⟩) = .ok task2)
    (hpoll2 : pollTask fetches2 = (.ok eid2, n2))
    (hget2 : imagesGetSdk eid2 = .ok img) :
    ((createPhysicalNetwork nonInteractive true [] nameFlag descFlag pgFlag ask
        (.ok ()) createSdk fetches networksGetSdk).1.filter isNetworksGet =
          [.networksGet eid] ∧
      (createPhysicalNetwork nonInteractive true [] nameFlag descFlag pgFlag ask
        (.ok ()) createSdk fetches networksGetSdk).2 = .ok ()) ∧
    ((createPhysicalNetwork nonInteractive false [] nameFlag descFlag pgFlag ask
        (.ok ()) createSdk fetches networksGetSdk).1.filter isNetworksGet = [] ∧
      (createPhysicalNetwork nonInteractive false [] nameFlag descFlag pgFlag ask
        (.ok ()) createSdk fetches networksGetSdk).2 = .ok ()) ∧
    ((createImage true true [fp] iname irepl iscope "" askKeep absPath fileExists
        openFile (.ok ()) loadConfig (.ok ()) imagesCreateSdk projectsCreateImageSdk
        fetches2 imagesGetSdk).1.filter isImagesGet = [.imagesGet eid2] ∧
      (createImage true true [fp] iname irepl iscope "" askKeep absPath fileExists
        openFile (.ok ()) loadConfig (.ok ()) imagesCreateSdk projectsCreateImageSdk
        fetches2 imagesGetSdk).2 = .ok ()) ∧
    ((createImage true false [fp] iname irepl iscope "" askKeep absPath fileExists
        openFile (.ok ()) loadConfig (.ok ()) imagesCreateSdk projectsCreateImageSdk
        fetches2 imagesGetSdk).1.filter isImagesGet = [] ∧
      (createImage true false [fp] iname irepl iscope "" askKeep absPath fileExists
        openFile (.ok ()) loadConfig (.ok ()) imagesCreateSdk projectsCreateImageSdk
        fetches2 imagesGetSdk).2 = .ok ()) := by
  have hnames : name.length ≠ 0 := fun hx => hname (string_length_zero hx)
  have hpgs : pg.length ≠ 0 := fun hx => hpg (string_length_zero hx)
  have hfps : fp.length ≠ 0 := fun hx => hfp (string_length_zero hx)
  have eNet : ∀ fmt : Bool,
      createPhysicalNetwork nonInteractive fmt [] nameFlag descFlag pgFlag ask
          (.ok ()) createSdk fetches networksGetSdk =
        (([.getClient, .networksCreate ⟨name, desc, splitCommaWS pg⟩]
            ++ taskFetchCalls task.id n
            ++ if fmt then [.networksGet eid] else []),
         .ok ()) := by
    intro fmt
    cases fmt <;>
      simp [createPhysicalNetwork, checkArgCount, hres, hnames, hpgs, hcreate,
        hpoll, hget]
  have eImg : ∀ fmt : Bool,
      createImage true fmt [fp] iname irepl iscope "" askKeep absPath fileExists
          openFile (.ok ()) loadConfig (.ok ()) imagesCreateSdk
          projectsCreateImageSdk fetches2 imagesGetSdk =
        (([.getClient, .imagesCreate iname] ++ taskFetchCalls task2.id n2
            ++ if fmt then [.imagesGet eid2] else []),
         .ok ()) := by
    intro fmt
    cases fmt <;>
      simp [createImage, resolveImagePrompts, hfps, habs, hex, hopen, hicreate,
        hpoll2, hget2]
  refine ⟨⟨?_, ?_⟩, ⟨?_, ?_⟩, ⟨?_, ?_⟩, ⟨?_, ?_⟩⟩
  · rw [eNet true]
    simp [List.filter_append, isNetworksGet,
      taskFetchCalls_filter isNetworksGet task.id n rfl]
  · rw [eNet true]
  · rw [eNet false]
    simp [List.filter_append, isNetworksGet,
      taskFetchCalls_filter isNetworksGet task.id n rfl]
  · rw [eNet false]
  · rw [eImg true]
    simp [List.filter_append, isImagesGet,
      taskFetchCalls_filter isImagesGet task2.id n2 rfl]
  · rw [eImg true]
  · rw [eImg false]
    simp [List.filter_append, isImagesGet,
      taskFetchCalls_filter isImagesGet task2.id n2 rfl]
  · rw [eImg false]

theorem create_formatting_get_by_id_witness :
    ((createPhysicalNetwork true true [] "net" "" "pg1, pg2" askKeep
        (.ok ()) (fun _ => .ok queuedNetTask) [completedNetTask]
        (fun i => .ok ⟨i, "net"⟩)).1.filter isNetworksGet =
          [.networksGet "network-ID"] ∧
      (createPhysicalNetwork true true [] "net" "" "pg1, pg2" askKeep
        (.ok ()) (fun _ => .ok queuedNetTask) [completedNetTask]
        (fun i => .ok ⟨i, "net"⟩)).2 = .ok ()) ∧
    ((createPhysicalNetwork true false [] "net" "" "pg1, pg2" askKeep
        (.ok ()) (fun _ => .ok queuedNetTask) [completedNetTask]
        (fun i => .ok ⟨i, "net"⟩)).1.filter isNetworksGet = [] ∧
      (createPhysicalNetwork true false [] "net" "" "pg1, pg2" askKeep
        (.ok ()) (fun _ => .ok queuedNetTask) [completedNetTask]
        (fun i => .ok ⟨i, "net"⟩)).2 = .ok ()) ∧
    ((createImage true true ["img.ova"] "img" "EAGER" "" "" askKeep
        (fun _ => .ok "/abs/img.ova") (fun _ => true) (fun _ => .ok ())
        (.ok ()) (.ok ⟨none⟩) (.ok ()) (fun _ _ => .ok queuedImageTask)
        (fun _ _ _ => .error "unused") [completedImageTask]
        (fun i => .ok ⟨i, "img"⟩)).1.filter isImagesGet = [.imagesGet "1"] ∧
      (createImage true true ["img.ova"] "img" "EAGER" "" "" askKeep
        (fun _ => .ok "/abs/img.ova") (fun _ => true) (fun _ => .ok ())
        (.ok ()) (.ok ⟨none⟩) (.ok ()) (fun _ _ => .ok queuedImageTask)
        (fun _ _ _ => .error "unused") [completedImageTask]
        (fun i => .ok ⟨i, "img"⟩)).2 = .ok ()) ∧
    ((createImage true false ["img.ova"] "img" "EAGER" "" "" askKeep
        (fun _ => .ok "/abs/img.ova") (fun _ => true) (fun _ => .ok ())
        (.ok ()) (.ok ⟨none⟩) (.ok ()) (fun _ _ => .ok queuedImageTask)
        (fun _ _ _ => .error "unused") [completedImageTask]
        (fun i => .ok ⟨i, "img"⟩)).1.filter isImagesGet = [] ∧
      (createImage true false ["img.ova"] "img" "EAGER" "" "" askKeep
        (fun _ => .ok "/abs/img.ova") (fun _ => true) (fun _ => .ok ())
        (.ok ()) (.ok ⟨none⟩) (.ok ()) (fun _ _ => .ok queuedImageTask)
        (fun _ _ _ => .error "unused") [completedImageTask]
        (fun i => .ok ⟨i, "img"⟩)).2 = .ok ()) :=
  create_formatting_get_by_id true "net" "" "pg1, pg2" askKeep
    "net" "" "pg1, pg2" (fun _ => .ok queuedNetTask) [completedNetTask]
    (fun i => .ok ⟨i, "net"⟩) queuedNetTask "network-ID" 1 ⟨"network-ID", "net"⟩
    rfl (by decide) (by decide) rfl rfl rfl
    "img.ova" "/abs/img.ova" "img" "EAGER" ""
    (fun _ => .ok "/abs/img.ova") (fun _ => true) (fun _ => .ok ())
    (.ok ⟨none⟩) (fun _ _ => .ok queuedImageTask) (fun _ _ _ => .error "unused")
    [completedImageTask] (fun i => .ok ⟨i, "img"⟩) queuedImageTask "1" 1
    ⟨"1", "img"⟩ (by decide) rfl rfl rfl rfl rfl rfl

/-- C9: when both the limits flag and the percent flag are set, createProject
errors on every path and never issues the project-creation SDK call; once the
arity check, client construction and tenant resolution succeed, the error is
precisely the one rejecting the flag combination. -/
theorem create_project_rejects_limits_and_percent
    (nonInteractive userConfirms needsFmt : Bool) (args : List String)
    (tenantFlag limitsFlag : String) (percentFlag : ℚ)
    (securityGroupsFlag cidrFlag : String)
    (ask : String → String → Except String String)
    (askLimits : Option (List QuotaLineItem) →
      Except String (Option (List QuotaLineItem)))
    (parseLimits : String → Except String (List QuotaLineItem))
    (convertQuota : List QuotaLineItem → List (String × QuotaStatusLineItem))
    (getClientResult : Except String Unit)
    (verifyTenantSdk : String → Except String Tenant)
    (getQuota : String → Except String (Option Quota))
    (createProjectSdk : String → ProjectCreateSpec → Except String Task)
    (fetches : List Task) (projectsGetSdk : String → Except String Unit) :
    ((∃ e, (createProject nonInteractive userConfirms needsFmt args tenantFlag
        limitsFlag percentFlag true true securityGroupsFlag cidrFlag ask askLimits
        parseLimits convertQuota getClientResult verifyTenantSdk getQuota
        createProjectSdk fetches projectsGetSdk).2 = .error e) ∧
      (∀ t s, SdkCall.tenantsCreateProject t s ∉
        (createProject nonInteractive userConfirms needsFmt args tenantFlag
          limitsFlag percentFlag true true securityGroupsFlag cidrFlag ask askLimits
          parseLimits convertQuota getClientResult verifyTenantSdk getQuota
          createProjectSdk fetches projectsGetSdk).1)) ∧
    (args.length = 1 → getClientResult = .ok () →
      ∀ ten, verifyTenantSdk tenantFlag = .ok ten →
        createProject nonInteractive userConfirms needsFmt args tenantFlag
            limitsFlag percentFlag true true securityGroupsFlag cidrFlag ask askLimits
            parseLimits convertQuota getClientResult verifyTenantSdk getQuota
            createProjectSdk fetches projectsGetSdk =
          ([.getClient, .verifyTenant tenantFlag],
            .error .onlyOneOfLimitsOrPercent)) := by
  constructor
  · by_cases h1 : args.length = 1
    · cases getClientResult with
      | error e =>
        exact ⟨⟨.transport e, by simp [createProject, checkArgCount, h1]⟩,
          by simp [createProject, checkArgCount, h1]⟩
      | ok u =>
        cases u
        cases hv : verifyTenantSdk tenantFlag with
        | error e =>
          exact ⟨⟨.transport e, by simp [createProject, checkArgCount, h1, hv]⟩,
            by simp [createProject, checkArgCount, h1, hv]⟩
        | ok ten =>
          exact ⟨⟨.onlyOneOfLimitsOrPercent,
              by simp [createProject, checkArgCount, h1, hv]⟩,
            by simp [createProject, checkArgCount, h1, hv]⟩
    · exact ⟨⟨.argCount args.length 1, by simp [createProject, checkArgCount, h1]⟩,
        by simp [createProject, checkArgCount, h1]⟩
  · intro h1 hgc ten hv
    subst hgc
    simp [createProject, checkArgCount, h1, hv]

theorem create_project_rejects_limits_and_percent_witness :
    createProject true true false ["proj1"] "t1" "vm.count 1 COUNT" 30 true true
        "" "" askKeep (fun l => .ok l) (fun _ => .ok []) (fun _ => [])
        (.ok ()) (fun _ => .ok ⟨"tid", "t1"⟩) (fun _ => .ok none)
        (fun _ _ => .error "unused") [] (fun _ => .ok ()) =
      ([.getClient, .verifyTenant "t1"], .error .onlyOneOfLimitsOrPercent) :=
  (create_project_rejects_limits_and_percent true true false ["proj1"] "t1"
      "vm.count 1 COUNT" 30 "" "" askKeep (fun l => .ok l) (fun _ => .ok [])
      (fun _ => []) (.ok ()) (fun _ => .ok ⟨"tid", "t1"⟩) (fun _ => .ok none)
      (fun _ _ => .error "unused") [] (fun _ => .ok ())).2
    (by decide) rfl ⟨"tid", "t1"⟩ rfl

/-- C10: createImage rejects more than one positional argument with no SDK
call at all; and in non-interactive mode, with at most one argument, an empty
image path or a path whose file does not exist is rejected before the client
is constructed or any call issued (the call trace is empty). -/
theorem create_image_arg_and_path_validation
    (nonInteractive needsFmt : Bool) (args : List String)
    (nameFlag replicationFlag scopeFlag projectFlag : String)
    (ask : String → String → Except String String)
    (absPath : String → Except String String) (fileExists : String → Bool)
    (openFile : String → Except String Unit) (closeFile : Except String Unit)
    (loadConfig : Except String Config) (getClientResult : Except String Unit)
    (imagesCreateSdk : String → Option ImageCreateOptions → Except String Task)
    (projectsCreateImageSdk : String → String → Option ImageCreateOptions →
      Except String Task)
    (fetches : List Task) (imagesGetSdk : String → Except String Image) :
    (1 < args.length →
      createImage nonInteractive needsFmt args nameFlag replicationFlag scopeFlag
          projectFlag ask absPath fileExists openFile closeFile loadConfig
          getClientResult imagesCreateSdk projectsCreateImageSdk fetches imagesGetSdk =
        ([], .error (.unknownArgument (args.drop 1)))) ∧
    (args.length ≤ 1 → args.headD "" = "" →
      createImage true needsFmt args nameFlag replicationFlag scopeFlag
          projectFlag ask absPath fileExists openFile closeFile loadConfig
          getClientResult imagesCreateSdk projectsCreateImageSdk fetches imagesGetSdk =
        ([], .error .missingImagePath)) ∧
    (∀ p, args.length ≤ 1 → args.headD "" ≠ "" → absPath (args.headD "") = .ok p →
      fileExists p = false →
      createImage true needsFmt args nameFlag replicationFlag scopeFlag
          projectFlag ask absPath fileExists openFile closeFile loadConfig
          getClientResult imagesCreateSdk projectsCreateImageSdk fetches imagesGetSdk =
        ([], .error .noSuchImageFile)) := by
  refine ⟨fun h => ?_, fun h hempty => ?_, fun p h hne habs hex => ?_⟩
  · simp [createImage, h]
  · have hnl : ¬ 1 < args.length := by omega
    have hempty' : args.head?.getD "" = "" := by simpa [List.headD_eq_head?_getD] using hempty
    simp [createImage, hnl, hempty']
  · have hnl : ¬ 1 < args.length := by omega
    have hlen : (args.head?.getD "").length ≠ 0 := by
      intro hx
      exact hne (by simpa [List.headD_eq_head?_getD] using string_length_zero hx)
    have habs' : absPath (args.head?.getD "") = .ok p := by
      simpa [List.headD_eq_head?_getD] using habs
    simp [createImage, hnl, hlen, habs', hex]

theorem create_image_arg_and_path_validation_witness :
    createImage true false ["x.ova", "y.ova"] "" "" "" "" askKeep
        (fun s => .ok s) (fun _ => false) (fun _ => .ok ()) (.ok ()) (.ok ⟨none⟩)
        (.ok ()) (fun _ _ => .error "unused") (fun _ _ _ => .error "unused") []
        (fun i => .ok ⟨i, ""⟩) =
      ([], .error (.unknownArgument ["y.ova"])) ∧
    createImage true false [] "" "" "" "" askKeep
        (fun s => .ok s) (fun _ => false) (fun _ => .ok ()) (.ok ()) (.ok ⟨none⟩)
        (.ok ()) (fun _ _ => .error "unused") (fun _ _ _ => .error "unused") []
        (fun i => .ok ⟨i, ""⟩) =
      ([], .error .missingImagePath) ∧
    createImage true false ["x.ova"] "" "" "" "" askKeep
        (fun s => .ok s) (fun _ => false) (fun _ => .ok ()) (.ok ()) (.ok ⟨none⟩)
        (.ok ()) (fun _ _ => .error "unused") (fun _ _ _ => .error "unused") []
        (fun i => .ok ⟨i, ""⟩) =
      ([], .error .noSuchImageFile) :=
  ⟨(create_image_arg_and_path_validation true false ["x.ova", "y.ova"] "" "" "" ""
      askKeep (fun s => .ok s) (fun _ => false) (fun _ => .ok ()) (.ok ())
      (.ok ⟨none⟩) (.ok ()) (fun _ _ => .error "unused") (fun _ _ _ => .error "unused")
      [] (fun i => .ok ⟨i, ""⟩)).1 (by decide),
   (create_image_arg_and_path_validation true false [] "" "" "" ""
      askKeep (fun s => .ok s) (fun _ => false) (fun _ => .ok ()) (.ok ())
      (.ok ⟨none⟩) (.ok ()) (fun _ _ => .error "unused") (fun _ _ _ => .error "unused")
      [] (fun i => .ok ⟨i, ""⟩)).2.1 (by decide) rfl,
   (create_image_arg_and_path_validation true false ["x.ova"] "" "" "" ""
      askKeep (fun s => .ok s) (fun _ => false) (fun _ => .ok ()) (.ok ())
      (.ok ⟨none⟩) (.ok ()) (fun _ _ => .error "unused") (fun _ _ _ => .error "unused")
      [] (fun i => .ok ⟨i, ""⟩)).2.2 "x.ova" (by decide) (by decide) rfl rfl⟩

end PhotonCLI
